import Mathlib

/-!
# Verification of ShapesDemo (`src/ShapesDemo/main.cpp`)

A shallow embedding of the shape-list demo program: a polymorphic shape
hierarchy (Circle, Rectangle, Square, Triangle), a line-oriented loader
(`loadList`), a sort by area, and a single aggregation pass in `main`.

Modelling conventions:
* `double` values are modelled as exact rationals at parse time and as real
  numbers wherever geometry is computed (the spec only asks for results
  "within floating-point tolerance").
* The C++ `stringstream` extraction is modelled by an explicit stream state
  (`IStream`): a failed extraction leaves the target variable unchanged when
  the sentry fails (end of input or an earlier failure), and zero-writes it
  when numeric conversion itself fails, as since C++11.
* The loop locals `char shapeType; double a, b, c;` are uninitialized; their
  indeterminate initial contents are modelled by an explicit environment
  (`JunkEnv`) passed to each line's processing.
* `std::sort` (not `std::stable_sort`) is used in `main`; the C++ standard
  only guarantees that the result is a permutation of the input that is
  sorted with respect to the comparator.  The sort is therefore modelled
  relationally by `IsSortResult`.
-/

namespace ShapesDemo

/-- The closed set of concrete shape classes of the program.  `Square` is a
subclass of `Rectangle` in the source; it carries a single `side` and behaves
as a `Rectangle side side`. -/
inductive Shape where
  | Circle (radius : ℚ)
  | Rectangle (length width : ℚ)
  | Square (side : ℚ)
  | Triangle (a b c : ℚ)
deriving DecidableEq, Repr

/-- `Circle::area`: `3.14159 * radius * radius` (the source uses the literal
`3.14159`, not `M_PI`). -/
noncomputable def circleArea (r : ℚ) : ℝ := 3.14159 * (r : ℝ) * (r : ℝ)

/-- `Circle::perimeter`: `2 * 3.14159 * radius`. -/
noncomputable def circlePerimeter (r : ℚ) : ℝ := 2 * 3.14159 * (r : ℝ)

/-- `Rectangle::area`: `length * width`. -/
def rectangleArea (l w : ℚ) : ℝ := (l : ℝ) * (w : ℝ)

/-- `Rectangle::perimeter`: `2 * (length + width)`. -/
def rectanglePerimeter (l w : ℚ) : ℝ := 2 * ((l : ℝ) + (w : ℝ))

/-- `Triangle::area`: Heron's formula
`0.25 * sqrt((a+b+c) * (-a+b+c) * (a-b+c) * (a+b-c))`. -/
noncomputable def triangleArea (a b c : ℚ) : ℝ :=
  0.25 * Real.sqrt (((a : ℝ) + b + c) * (-(a : ℝ) + b + c) *
    ((a : ℝ) - b + c) * ((a : ℝ) + b - c))

/-- `Triangle::perimeter`: `sides[0] + sides[1] + sides[2]`. -/
def trianglePerimeter (a b c : ℚ) : ℝ := (a : ℝ) + (b : ℝ) + (c : ℝ)

/-- Virtual dispatch of `area()`.  The `Square` case runs the inherited
`Rectangle::area` with `length = width = side`. -/
noncomputable def Shape.area : Shape → ℝ
  | .Circle r => circleArea r
  | .Rectangle l w => rectangleArea l w
  | .Square s => rectangleArea s s
  | .Triangle a b c => triangleArea a b c

/-- Virtual dispatch of `perimeter()`.  The `Square` case runs the inherited
`Rectangle::perimeter` with `length = width = side`. -/
noncomputable def Shape.perimeter : Shape → ℝ
  | .Circle r => circlePerimeter r
  | .Rectangle l w => rectanglePerimeter l w
  | .Square s => rectanglePerimeter s s
  | .Triangle a b c => trianglePerimeter a b c

/-- Models `dynamic_pointer_cast<Polygon>(shape)` followed by reading
`nSides`: `none` for `Circle`; `Rectangle` and `Square` both set `nSides = 4`
in the `Rectangle` constructor, `Triangle` sets `nSides = 3`. -/
def Shape.nSides? : Shape → Option ℕ
  | .Circle _ => none
  | .Rectangle _ _ => some 4
  | .Square _ => some 4
  | .Triangle _ _ _ => some 3

/-- Models the RTTI printing `typeid(*shape).name() + 6`, which under the
original toolchain skips the `"class "` prefix and yields the bare class
name. -/
def Shape.typeName : Shape → String
  | .Circle _ => "Circle"
  | .Rectangle _ _ => "Rectangle"
  | .Square _ => "Square"
  | .Triangle _ _ _ => "Triangle"

def Shape.isCircle : Shape → Bool
  | .Circle _ => true
  | _ => false

def Shape.isRectangle : Shape → Bool
  | .Rectangle _ _ => true
  | _ => false

def Shape.isSquare : Shape → Bool
  | .Square _ => true
  | _ => false

def Shape.isTriangle : Shape → Bool
  | .Triangle _ _ _ => true
  | _ => false

/-! ## The loader (`loadList`)

`loadList` reads the file line by line (`getline`), builds a `stringstream`
per line, extracts a `char` type code and up to three `double` parameters,
and either appends the corresponding shape or prints
`"Unknown shape: <code>"` on `cerr`. -/

/-- Numeric value of a digit string (most significant first). -/
def digitsVal (ds : List Char) : ℕ :=
  ds.foldl (fun n d => 10 * n + (d.toNat - 48)) 0

/-- Leading sign of a numeral: consumed if present, with its value. -/
def parseSign : List Char → ℚ × List Char
  | '-' :: t => (-1, t)
  | '+' :: t => (1, t)
  | cs => (1, cs)

/-- Decimal numeral recognizer for `operator>>(double&)`: an optional sign,
then digits with at most one decimal point (at least one digit overall).
Returns the parsed value and the unconsumed rest, or `none` when no numeral
starts here. -/
def parseNumeral (cs : List Char) : Option (ℚ × List Char) :=
  let sp := parseSign cs
  let ip := sp.2.takeWhile Char.isDigit
  let cs2 := sp.2.dropWhile Char.isDigit
  match cs2 with
  | '.' :: t =>
    let fp := t.takeWhile Char.isDigit
    let cs3 := t.dropWhile Char.isDigit
    if ip.isEmpty && fp.isEmpty then none
    else some (sp.1 * ((digitsVal ip : ℚ) + (digitsVal fp : ℚ) / 10 ^ fp.length), cs3)
  | _ => if ip.isEmpty then none else some (sp.1 * (digitsVal ip : ℚ), cs2)

/-- The state of a `stringstream` being extracted from: the unread
characters and whether a failure bit is set. -/
structure IStream where
  rest : List Char
  failed : Bool
deriving DecidableEq, Repr

/-- `ss >> x` for a `double x`.  `old` is the current contents of `x`.
If the stream already failed, or the sentry finds no character after
skipping whitespace, `x` is left unchanged; if numeric conversion fails,
`x` is zero-written (C++11 semantics) and the fail bit is set. -/
def readNum (st : IStream) (old : ℚ) : ℚ × IStream :=
  if st.failed then (old, st)
  else
    let r := st.rest.dropWhile Char.isWhitespace
    match r with
    | [] => (old, ⟨[], true⟩)
    | _ :: _ =>
      match parseNumeral r with
      | some (q, r2) => (q, ⟨r2, false⟩)
      | none => (0, ⟨r, true⟩)

/-- `ss >> shapeType` for a `char`: skip whitespace and take one character;
on sentry failure the variable keeps its previous contents. -/
def readChar (st : IStream) (old : Char) : Char × IStream :=
  if st.failed then (old, st)
  else
    match st.rest.dropWhile Char.isWhitespace with
    | [] => (old, ⟨[], true⟩)
    | ch :: t => (ch, ⟨t, false⟩)

/-- The indeterminate initial contents of the uninitialized loop locals
`char shapeType; double a, b, c;` declared afresh for each line. -/
structure JunkEnv where
  ch : Char
  a : ℚ
  b : ℚ
  c : ℚ

/-- One iteration of the `while (getline ...)` loop body: extract the type
code, switch on it, and produce either a constructed shape or an
`"Unknown shape"` warning for `cerr`. -/
def processLine (env : JunkEnv) (line : String) : Option Shape × Option String :=
  let st0 : IStream := ⟨line.toList, false⟩
  let ct := readChar st0 env.ch
  let shapeType := ct.1
  let st1 := ct.2
  match shapeType with
  | 'C' =>
    let ra := readNum st1 env.a
    (some (.Circle ra.1), none)
  | 'T' =>
    let ra := readNum st1 env.a
    let rb := readNum ra.2 env.b
    let rc := readNum rb.2 env.c
    (some (.Triangle ra.1 rb.1 rc.1), none)
  | 'R' =>
    let ra := readNum st1 env.a
    let rb := readNum ra.2 env.b
    (some (.Rectangle ra.1 rb.1), none)
  | 'S' =>
    let ra := readNum st1 env.a
    (some (.Square ra.1), none)
  | _ => (none, some ("Unknown shape: " ++ String.singleton shapeType))

/-- `loadList` over an already-opened file, given as its list of lines:
returns the shape vector and the `cerr` warnings, in file order.
`envs n` is the indeterminate initial contents of the loop locals on the
`n`-th iteration. -/
def loadList (envs : ℕ → JunkEnv) : List String → List Shape × List String
  | [] => ([], [])
  | line :: rest =>
    let pr := processLine (envs 0) line
    let tl := loadList (fun n => envs (n + 1)) rest
    (match pr.1 with
     | some s => s :: tl.1
     | none => tl.1,
     match pr.2 with
     | some w => w :: tl.2
     | none => tl.2)

/-! ## The sort in `main`

`main` calls `std::sort` with the comparator
`[](ShapePtr a, ShapePtr b) { return a->area() < b->area(); }`.
`std::sort` guarantees only that the result is a permutation of the input
that is sorted with respect to the comparator; it does not guarantee
stability, so the sort is modelled as a relation on lists. -/

/-- The comparator passed to `std::sort`. -/
def areaLt (x y : Shape) : Prop := x.area < y.area

/-- `IsSortResult l l'` holds iff `l'` is a possible result of
`std::sort(l.begin(), l.end(), areaLt)`: a permutation of `l` that is
sorted with respect to the comparator (no later element compares less
than an earlier one). -/
def IsSortResult (l l' : List Shape) : Prop :=
  l'.Perm l ∧ l'.Sorted (fun x y => ¬ areaLt y x)

/-- Stability of a sort step: any two input elements with equal areas
occur in the output in their original relative order. -/
def StableByArea (l l' : List Shape) : Prop :=
  ∀ (i j : ℕ) (hi : i < l.length) (hj : j < l.length), i < j →
    (l.get ⟨i, hi⟩).area = (l.get ⟨j, hj⟩).area →
    ∀ (p q : ℕ) (hp : p < l'.length) (hq : q < l'.length),
      l'.get ⟨p, hp⟩ = l.get ⟨i, hi⟩ → l'.get ⟨q, hq⟩ = l.get ⟨j, hj⟩ →
      p < q

/-! ## The aggregation pass in `main` -/

/-- The three accumulators of the single aggregation loop.  In the source
`totalPolygons` is an `unsigned` and `totalPolygonSides` a `double`. -/
structure Totals where
  totalPerimeter : ℝ
  totalPolygons : ℕ
  totalPolygonSides : ℝ

/-- One iteration of the aggregation loop: add the perimeter, and if the
`dynamic_pointer_cast<Polygon>` succeeds, count the polygon and add its
`nSides`. -/
noncomputable def aggStep (t : Totals) (s : Shape) : Totals :=
  let t1 : Totals := { t with totalPerimeter := t.totalPerimeter + s.perimeter }
  match s.nSides? with
  | some n =>
    { t1 with
      totalPolygons := t1.totalPolygons + 1
      totalPolygonSides := t1.totalPolygonSides + (n : ℝ) }
  | none => t1

/-- The whole aggregation loop, starting from the zero-initialized
accumulators. -/
noncomputable def aggregate (shapes : List Shape) : Totals :=
  shapes.foldl aggStep ⟨0, 0, 0⟩

/-! ## The whole program (`main`) -/

/-- The observable outcome of one program run.  The numeric summary values
are kept structured rather than as formatted text; `avgSides` is the value
of the expression `totalPolygonSides / totalPolygons` printed on the last
summary line, and `wroteStdout` records whether anything was printed on
standard output. -/
structure RunResult where
  stdoutNames : List String
  totalShapes : ℕ
  totalPerimeter : ℝ
  totalPolygons : ℕ
  totalPolygonSides : ℝ
  avgSides : ℝ
  wroteStdout : Bool
  exitCode : ℕ
  stderrLines : List String

/-- `ProgramRun envs file result`: running `main` with the input file
`file` (`none` when `shapes.txt` cannot be opened, otherwise its lines)
can produce `result`.  On open failure `loadList` calls
`exit(EXIT_FAILURE)` before anything is printed; otherwise the shapes are
loaded, sorted by area (any `std::sort`-legal result), aggregated, printed
and `main` returns `0`. -/
inductive ProgramRun (envs : ℕ → JunkEnv) : Option (List String) → RunResult → Prop
  | openFail :
      ProgramRun envs none
        { stdoutNames := []
          totalShapes := 0
          totalPerimeter := 0
          totalPolygons := 0
          totalPolygonSides := 0
          avgSides := 0
          wroteStdout := false
          exitCode := 1
          stderrLines := [] }
  | ok (lines : List String) (sorted : List Shape)
      (hsort : IsSortResult (loadList envs lines).1 sorted) :
      ProgramRun envs (some lines)
        { stdoutNames := sorted.map Shape.typeName
          totalShapes := sorted.length
          totalPerimeter := (aggregate sorted).totalPerimeter
          totalPolygons := (aggregate sorted).totalPolygons
          totalPolygonSides := (aggregate sorted).totalPolygonSides
          avgSides := (aggregate sorted).totalPolygonSides /
            ((aggregate sorted).totalPolygons : ℝ)
          wroteStdout := true
          exitCode := 0
          stderrLines := (loadList envs lines).2 }

/-! ## Helper lemmas -/

/-- Both `Rectangle` and `Square` answer the `Polygon` cast; only `Circle`
does not. -/
theorem nSides_isSome_iff (s : Shape) :
    s.nSides?.isSome = (s.isRectangle || s.isSquare || s.isTriangle) := by
  cases s <;> rfl

/-- Any two `std::sort`-legal results agree when all areas in the input are
pairwise distinct: a sorted permutation is then unique. -/
theorem sortResult_unique {l l₁ l₂ : List Shape}
    (h₁ : IsSortResult l l₁) (h₂ : IsSortResult l l₂)
    (hd : l.Pairwise fun x y => Shape.area x ≠ Shape.area y) : l₁ = l₂ := by
  obtain ⟨p₁, s₁⟩ := h₁
  obtain ⟨p₂, s₂⟩ := h₂
  have hsymm : Symmetric fun x y : Shape => Shape.area x ≠ Shape.area y :=
    fun _ _ h => Ne.symm h
  have hd₁ : l₁.Pairwise fun x y => Shape.area x ≠ Shape.area y :=
    (p₁.pairwise_iff fun h => hsymm h).mpr hd
  have hd₂ : l₂.Pairwise fun x y => Shape.area x ≠ Shape.area y :=
    (p₂.pairwise_iff fun h => hsymm h).mpr hd
  have strict₁ : l₁.Sorted fun x y => Shape.area x < Shape.area y :=
    (s₁.and hd₁).imp fun h => lt_of_le_of_ne (not_lt.mp h.1) h.2
  have strict₂ : l₂.Sorted fun x y => Shape.area x < Shape.area y :=
    (s₂.and hd₂).imp fun h => lt_of_le_of_ne (not_lt.mp h.1) h.2
  haveI : IsAntisymm Shape fun x y => Shape.area x < Shape.area y :=
    ⟨fun _ _ hab hba => absurd (hab.trans hba) (lt_irrefl _)⟩
  exact List.eq_of_perm_of_sorted (p₁.trans p₂.symm) strict₁ strict₂

theorem aggStep_perimeter (t : Totals) (s : Shape) :
    (aggStep t s).totalPerimeter = t.totalPerimeter + s.perimeter := by
  cases s <;> simp [aggStep, Shape.nSides?]

theorem aggStep_polygons (t : Totals) (s : Shape) :
    (aggStep t s).totalPolygons =
      t.totalPolygons + (if s.nSides?.isSome then 1 else 0) := by
  cases s <;> simp [aggStep, Shape.nSides?]

theorem aggStep_sides (t : Totals) (s : Shape) :
    (aggStep t s).totalPolygonSides =
      t.totalPolygonSides + (s.nSides?.getD 0 : ℝ) := by
  cases s <;> simp [aggStep, Shape.nSides?]

/-- Loop invariant of the aggregation pass, for an arbitrary starting
accumulator. -/
theorem agg_loop_spec (l : List Shape) : ∀ t : Totals,
    (l.foldl aggStep t).totalPerimeter
        = t.totalPerimeter + (l.map Shape.perimeter).sum ∧
    (l.foldl aggStep t).totalPolygons
        = t.totalPolygons + l.countP (fun s => s.nSides?.isSome) ∧
    (l.foldl aggStep t).totalPolygonSides
        = t.totalPolygonSides + (((l.map fun s => s.nSides?.getD 0).sum : ℕ) : ℝ) := by
  induction l with
  | nil => intro t; simp
  | cons s l ih =>
    intro t
    obtain ⟨ih₁, ih₂, ih₃⟩ := ih (aggStep t s)
    refine ⟨?_, ?_, ?_⟩
    · rw [List.foldl_cons, ih₁, aggStep_perimeter]
      simp [add_assoc]
    · rw [List.foldl_cons, ih₂, aggStep_polygons, List.countP_cons]
      omega
    · rw [List.foldl_cons, ih₃, aggStep_sides]
      push_cast
      simp [add_assoc]

theorem aggregate_perimeter (l : List Shape) :
    (aggregate l).totalPerimeter = (l.map Shape.perimeter).sum := by
  have h := (agg_loop_spec l ⟨0, 0, 0⟩).1
  simpa [aggregate] using h

theorem aggregate_polygons (l : List Shape) :
    (aggregate l).totalPolygons = l.countP (fun s => s.nSides?.isSome) := by
  have h := (agg_loop_spec l ⟨0, 0, 0⟩).2.1
  simpa [aggregate] using h

theorem aggregate_sides (l : List Shape) :
    (aggregate l).totalPolygonSides
      = (((l.map fun s => s.nSides?.getD 0).sum : ℕ) : ℝ) := by
  have h := (agg_loop_spec l ⟨0, 0, 0⟩).2.2
  simpa [aggregate] using h

/-- The polygon count is the number of `Rectangle`, `Square` and
`Triangle` instances. -/
theorem countP_polygons (l : List Shape) :
    l.countP (fun s => s.nSides?.isSome)
      = l.countP Shape.isRectangle + l.countP Shape.isSquare
        + l.countP Shape.isTriangle := by
  induction l with
  | nil => simp
  | cons s l ih =>
    simp only [List.countP_cons, ih]
    cases s <;>
      simp [Shape.nSides?, Shape.isRectangle, Shape.isSquare, Shape.isTriangle] <;>
      omega

/-- The side-count sum is `4·(#Rectangle + #Square) + 3·#Triangle`. -/
theorem sides_sum (l : List Shape) :
    (l.map fun s => s.nSides?.getD 0).sum
      = 4 * (l.countP Shape.isRectangle + l.countP Shape.isSquare)
        + 3 * l.countP Shape.isTriangle := by
  induction l with
  | nil => simp
  | cons s l ih =>
    simp only [List.map_cons, List.sum_cons, List.countP_cons, ih]
    cases s <;>
      simp [Shape.nSides?, Shape.isRectangle, Shape.isSquare, Shape.isTriangle] <;>
      omega

/-- A line producing a shape and no warning is appended; the rest of the
file is processed unchanged. -/
theorem loadList_cons_shape (envs : ℕ → JunkEnv) (line : String)
    (rest : List String) (s : Shape)
    (h : processLine (envs 0) line = (some s, none)) :
    loadList envs (line :: rest)
      = (s :: (loadList (fun n => envs (n + 1)) rest).1,
         (loadList (fun n => envs (n + 1)) rest).2) := by
  simp [loadList, h]

/-- A line producing a warning and no shape contributes only the warning;
the rest of the file is processed unchanged. -/
theorem loadList_cons_warn (envs : ℕ → JunkEnv) (line : String)
    (rest : List String) (w : String)
    (h : processLine (envs 0) line = (none, some w)) :
    loadList envs (line :: rest)
      = ((loadList (fun n => envs (n + 1)) rest).1,
         w :: (loadList (fun n => envs (n + 1)) rest).2) := by
  simp [loadList, h]

/-- Any line whose first non-blank character is none of the four known
codes produces exactly the `"Unknown shape"` warning and no shape. -/
theorem processLine_unknown (env : JunkEnv) (line : String) (ch : Char)
    (cs : List Char)
    (hline : line.toList.dropWhile Char.isWhitespace = ch :: cs)
    (hC : ch ≠ 'C') (hT : ch ≠ 'T') (hR : ch ≠ 'R') (hS : ch ≠ 'S') :
    processLine env line = (none, some ("Unknown shape: " ++ String.singleton ch)) := by
  simp only [processLine, readChar, Bool.false_eq_true, if_false, hline]

/-! ### Concrete line evaluations -/

theorem processLine_C2 (env : JunkEnv) :
    processLine env "C 2" = (some (.Circle 2), none) := by
  simp [processLine, readChar, readNum, parseNumeral, parseSign, digitsVal]

theorem processLine_S3 (env : JunkEnv) :
    processLine env "S 3" = (some (.Square 3), none) := by
  simp [processLine, readChar, readNum, parseNumeral, parseSign, digitsVal]

theorem processLine_X12 (env : JunkEnv) :
    processLine env "X 1 2" = (none, some "Unknown shape: X") := by
  simpa using processLine_unknown env "X 1 2" 'X' [' ', '1', ' ', '2'] rfl
    (by decide) (by decide) (by decide) (by decide)

theorem loadList_C2S3 (envs : ℕ → JunkEnv) :
    loadList envs ["C 2", "S 3"] = ([Shape.Circle 2, Shape.Square 3], []) := by
  simp [loadList, processLine_C2, processLine_S3]

theorem loadList_X12 (envs : ℕ → JunkEnv) :
    loadList envs ["X 1 2"] = ([], ["Unknown shape: X"]) := by
  simp [loadList, processLine_X12]

/-- `[Square 3, Circle 2]` is a legal `std::sort` output for the parsed
sequence `[Circle 2, Square 3]` (areas `9 ≤ 12.56636`). -/
theorem sorted_S3C2 :
    IsSortResult [Shape.Circle 2, Shape.Square 3] [Shape.Square 3, Shape.Circle 2] := by
  refine ⟨List.Perm.swap (Shape.Circle 2) (Shape.Square 3) [], ?_⟩
  simp only [List.sorted_cons, List.mem_singleton, forall_eq, List.sorted_singleton,
    and_true, areaLt, Shape.area, circleArea, rectangleArea]
  push_cast
  norm_num

/-- `Circle 2` and `Square 3` have distinct areas. -/
theorem distinct_C2S3 :
    List.Pairwise (fun x y => Shape.area x ≠ Shape.area y)
      [Shape.Circle 2, Shape.Square 3] := by
  simp only [List.pairwise_cons, List.mem_singleton, forall_eq, List.pairwise_singleton,
    and_true, Shape.area, circleArea, rectangleArea]
  push_cast
  norm_num

/-- Value of the aggregation pass on `[Square 3, Circle 2]`. -/
theorem aggregate_S3C2 :
    (aggregate [Shape.Square 3, Shape.Circle 2]).totalPerimeter = 24.56636 ∧
    (aggregate [Shape.Square 3, Shape.Circle 2]).totalPolygons = 1 ∧
    (aggregate [Shape.Square 3, Shape.Circle 2]).totalPolygonSides = 4 := by
  refine ⟨?_, ?_, ?_⟩ <;>
    simp only [aggregate, List.foldl_cons, List.foldl_nil, aggStep, Shape.nSides?,
      Shape.perimeter, rectanglePerimeter, circlePerimeter] <;>
    push_cast <;>
    norm_num

/-! ## Claims -/

/-- C2: for every Circle constructed with radius `r > 0`, `area()` equals
`π·r²` and `perimeter()` equals `2·π·r` within floating-point tolerance
(the source uses the constant `3.14159`, within `3·10⁻⁶` of `π`, so the
results carry a relative error below `10⁻⁵`). -/
theorem c2_circle_formulas (r : ℚ) (hr : 0 < r) :
    |(Shape.Circle r).area - Real.pi * (r : ℝ) ^ 2| ≤ 3e-6 * (r : ℝ) ^ 2 ∧
    |(Shape.Circle r).perimeter - 2 * Real.pi * (r : ℝ)| ≤ 6e-6 * (r : ℝ) := by
  have hπu : Real.pi < 3.141593 := Real.pi_lt_d6
  have hπl : (3.141592 : ℝ) < Real.pi := Real.pi_gt_d6
  have hr' : (0 : ℝ) < (r : ℝ) := by exact_mod_cast hr
  have key : |(3.14159 : ℝ) - Real.pi| ≤ 3e-6 := by
    rw [abs_sub_comm, abs_of_pos (by norm_num; linarith : (0:ℝ) < Real.pi - 3.14159)]
    norm_num
    linarith
  constructor
  · have harea : (Shape.Circle r).area - Real.pi * (r : ℝ) ^ 2
        = ((3.14159 : ℝ) - Real.pi) * (r : ℝ) ^ 2 := by
      simp only [Shape.area, circleArea]
      ring
    rw [harea, abs_mul, abs_of_nonneg (by positivity : (0:ℝ) ≤ (r : ℝ) ^ 2)]
    exact mul_le_mul_of_nonneg_right key (by positivity)
  · have hperim : (Shape.Circle r).perimeter - 2 * Real.pi * (r : ℝ)
        = ((3.14159 : ℝ) - Real.pi) * (2 * (r : ℝ)) := by
      simp only [Shape.perimeter, circlePerimeter]
      ring
    rw [hperim, abs_mul, abs_of_nonneg (by positivity : (0:ℝ) ≤ 2 * (r : ℝ))]
    calc |(3.14159 : ℝ) - Real.pi| * (2 * (r : ℝ))
        ≤ 3e-6 * (2 * (r : ℝ)) :=
          mul_le_mul_of_nonneg_right key (by positivity)
      _ = 6e-6 * (r : ℝ) := by ring

/-- Witness for C2 at `r = 1`. -/
theorem c2_circle_formulas_witness :
    (0 : ℚ) < 1 ∧
    (|(Shape.Circle 1).area - Real.pi * ((1 : ℚ) : ℝ) ^ 2| ≤ 3e-6 * ((1 : ℚ) : ℝ) ^ 2 ∧
     |(Shape.Circle 1).perimeter - 2 * Real.pi * ((1 : ℚ) : ℝ)| ≤ 6e-6 * ((1 : ℚ) : ℝ)) :=
  ⟨by norm_num, c2_circle_formulas 1 (by norm_num)⟩

/-- C4: after the aggregation pass in `main` (a single pass over a
`std::sort`-legal rearrangement of the parsed sequence), `totalPerimeter`
is the sum of all perimeters of the input, `totalPolygons` is the number
of Rectangle, Square and Triangle instances in the input, and
`totalPolygonSides` is `4·(#Rectangle + #Square) + 3·#Triangle`. -/
theorem c4_aggregation (input sorted : List Shape)
    (hsort : IsSortResult input sorted) :
    (aggregate sorted).totalPerimeter = (input.map Shape.perimeter).sum ∧
    (aggregate sorted).totalPolygons
      = input.countP Shape.isRectangle + input.countP Shape.isSquare
        + input.countP Shape.isTriangle ∧
    (aggregate sorted).totalPolygonSides
      = ((4 * (input.countP Shape.isRectangle + input.countP Shape.isSquare)
          + 3 * input.countP Shape.isTriangle : ℕ) : ℝ) := by
  obtain ⟨hperm, -⟩ := hsort
  refine ⟨?_, ?_, ?_⟩
  · rw [aggregate_perimeter, (hperm.map Shape.perimeter).sum_eq]
  · rw [aggregate_polygons, countP_polygons,
      hperm.countP_eq, hperm.countP_eq, hperm.countP_eq]
  · rw [aggregate_sides, sides_sum,
      hperm.countP_eq, hperm.countP_eq, hperm.countP_eq]

/-- Witness for C4 on the input `[Circle 2, Square 3]` with the (unique)
sort result `[Square 3, Circle 2]`. -/
theorem c4_aggregation_witness :
    (aggregate [Shape.Square 3, Shape.Circle 2]).totalPerimeter
        = ([Shape.Circle 2, Shape.Square 3].map Shape.perimeter).sum ∧
    (aggregate [Shape.Square 3, Shape.Circle 2]).totalPolygons
      = [Shape.Circle 2, Shape.Square 3].countP Shape.isRectangle
        + [Shape.Circle 2, Shape.Square 3].countP Shape.isSquare
        + [Shape.Circle 2, Shape.Square 3].countP Shape.isTriangle ∧
    (aggregate [Shape.Square 3, Shape.Circle 2]).totalPolygonSides
      = ((4 * ([Shape.Circle 2, Shape.Square 3].countP Shape.isRectangle
              + [Shape.Circle 2, Shape.Square 3].countP Shape.isSquare)
          + 3 * [Shape.Circle 2, Shape.Square 3].countP Shape.isTriangle : ℕ) : ℝ) :=
  c4_aggregation [Shape.Circle 2, Shape.Square 3] [Shape.Square 3, Shape.Circle 2]
    ⟨List.Perm.swap (Shape.Circle 2) (Shape.Square 3) [],
     by
      simp only [List.sorted_cons, List.mem_singleton, forall_eq, List.sorted_singleton,
        and_true, areaLt, Shape.area, circleArea, rectangleArea]
      push_cast
      norm_num⟩

/-- C5: a `Square side` behaves exactly as a `Rectangle side side` in both
`area()` and `perimeter()` (it inherits both members from `Rectangle`),
and `Rectangle l w` has `area() = l·w` and `perimeter() = 2·(l + w)`. -/
theorem c5_square_is_rectangle (s l w : ℚ) :
    (Shape.Square s).area = (Shape.Rectangle s s).area ∧
    (Shape.Square s).perimeter = (Shape.Rectangle s s).perimeter ∧
    (Shape.Rectangle l w).area = (l : ℝ) * (w : ℝ) ∧
    (Shape.Rectangle l w).perimeter = 2 * ((l : ℝ) + (w : ℝ)) :=
  ⟨rfl, rfl, rfl, rfl⟩

/-- C8: when the input file cannot be opened, the process exits at once
with a failure status and produces no standard output; every run in which
the file does open exits with status 0, so open failure is the only
aborting condition. -/
theorem c8_open_failure (envs : ℕ → JunkEnv) (r : RunResult)
    (h : ProgramRun envs none r) :
    (r.exitCode ≠ 0 ∧ r.wroteStdout = false ∧ r.stdoutNames = []) ∧
    ∀ (lines : List String) (r2 : RunResult),
      ProgramRun envs (some lines) r2 → r2.exitCode = 0 := by
  cases h
  refine ⟨⟨by norm_num, rfl, rfl⟩, ?_⟩
  intro lines r2 h2
  cases h2
  rfl

/-- Witness for C8: the open-failure run itself. -/
theorem c8_open_failure_witness :
    ((1 : ℕ) ≠ 0 ∧ false = false ∧ ([] : List String) = []) ∧
    ∀ (lines : List String) (r2 : RunResult),
      ProgramRun (fun _ => ⟨'J', 0, 0, 0⟩) (some lines) r2 → r2.exitCode = 0 :=
  c8_open_failure (fun _ => ⟨'J', 0, 0, 0⟩) _ ProgramRun.openFail

/-- C10: type-code matching is case-sensitive — a line starting with a
lowercase `c`, `r`, `s` or `t` constructs no shape and is reported as an
unrecognized code on the error stream. -/
theorem c10_case_sensitive (env : JunkEnv) (line : String) (ch : Char)
    (cs : List Char)
    (hline : line.toList.dropWhile Char.isWhitespace = ch :: cs)
    (hlow : ch = 'c' ∨ ch = 'r' ∨ ch = 's' ∨ ch = 't') :
    processLine env line = (none, some ("Unknown shape: " ++ String.singleton ch)) := by
  rcases hlow with h | h | h | h <;> subst h <;>
    exact processLine_unknown env line _ cs hline
      (by decide) (by decide) (by decide) (by decide)

/-- Witness for C10 on the line `"c 2"`. -/
theorem c10_case_sensitive_witness :
    processLine ⟨'J', 0, 0, 0⟩ "c 2"
      = (none, some ("Unknown shape: " ++ String.singleton 'c')) :=
  c10_case_sensitive ⟨'J', 0, 0, 0⟩ "c 2" 'c' [' ', '2'] rfl (Or.inl rfl)

/-- C3: an input whose only line carries the unrecognized code `X`
produces zero shapes, a run that still succeeds, prints total shapes = 0,
and computes the average-sides quotient with a zero divisor
(`totalPolygons = 0`) without any special-casing. -/
theorem c3_zero_polygons_division (envs : ℕ → JunkEnv) (r : RunResult)
    (h : ProgramRun envs (some ["X 1 2"]) r) :
    (loadList envs ["X 1 2"]).1 = [] ∧
    r.stderrLines = ["Unknown shape: X"] ∧
    r.totalShapes = 0 ∧
    r.totalPolygons = 0 ∧
    r.avgSides = r.totalPolygonSides / (r.totalPolygons : ℝ) ∧
    r.exitCode = 0 ∧
    r.wroteStdout = true := by
  cases h with
  | ok lines sorted hsort =>
    have hnil : sorted = [] :=
      List.Perm.eq_nil (by simpa [loadList_X12] using hsort.1)
    subst hnil
    exact ⟨by simp [loadList_X12], by simp [loadList_X12], rfl, rfl, rfl, rfl, rfl⟩

/-- Witness for C3: the run on the file `["X 1 2"]` with the empty sorted
sequence. -/
theorem c3_zero_polygons_division_witness :
    (loadList (fun _ => ⟨'J', 0, 0, 0⟩) ["X 1 2"]).1 = [] ∧
    (loadList (fun _ => (⟨'J', 0, 0, 0⟩ : JunkEnv)) ["X 1 2"]).2
      = ["Unknown shape: X"] ∧
    ([] : List Shape).length = 0 ∧
    (aggregate []).totalPolygons = 0 ∧
    (aggregate []).totalPolygonSides / (((aggregate []).totalPolygons : ℕ) : ℝ)
      = (aggregate []).totalPolygonSides / (((aggregate []).totalPolygons : ℕ) : ℝ) ∧
    (0 : ℕ) = 0 ∧
    true = true :=
  c3_zero_polygons_division (fun _ => ⟨'J', 0, 0, 0⟩) _
    (ProgramRun.ok ["X 1 2"] []
      ⟨by simp [loadList_X12], List.sorted_nil⟩)

/-- C6: on the input file `C 2` then `S 3`, the program lists the Square
(area 9) before the Circle (area ≈ 12.566), and prints total shapes = 2,
total perimeter ≈ 24.566, total polygons = 1 and average polygon
sides = 4. -/
theorem c6_scenario1 (envs : ℕ → JunkEnv) (r : RunResult)
    (h : ProgramRun envs (some ["C 2", "S 3"]) r) :
    r.stdoutNames = ["Square", "Circle"] ∧
    (Shape.Square 3).area = 9 ∧
    |(Shape.Circle 2).area - 12.566| ≤ 1e-3 ∧
    r.totalShapes = 2 ∧
    |r.totalPerimeter - 24.566| ≤ 1e-3 ∧
    r.totalPolygons = 1 ∧
    r.avgSides = 4 ∧
    r.exitCode = 0 := by
  have hsq : (Shape.Square 3).area = 9 := by
    simp only [Shape.area, rectangleArea]
    push_cast
    norm_num
  have hcirc : (Shape.Circle 2).area = 12.56636 := by
    simp only [Shape.area, circleArea]
    push_cast
    norm_num
  cases h with
  | ok lines sorted hsort =>
    rw [loadList_C2S3] at hsort
    have hu : sorted = [Shape.Square 3, Shape.Circle 2] :=
      sortResult_unique hsort sorted_S3C2 distinct_C2S3
    subst hu
    obtain ⟨hp, hpoly, hsides⟩ := aggregate_S3C2
    refine ⟨rfl, hsq, ?_, rfl, ?_, hpoly, ?_, rfl⟩
    · rw [hcirc, show (12.56636 : ℝ) - 12.566 = 0.00036 by norm_num,
        abs_of_pos (by norm_num : (0:ℝ) < 0.00036)]
      norm_num
    · rw [hp, show (24.56636 : ℝ) - 24.566 = 0.00036 by norm_num,
        abs_of_pos (by norm_num : (0:ℝ) < 0.00036)]
      norm_num
    · rw [hsides, hpoly]
      norm_num

/-- Witness for C6: the run on the file `["C 2", "S 3"]` with the unique
sorted sequence `[Square 3, Circle 2]`. -/
theorem c6_scenario1_witness :
    [Shape.Square 3, Shape.Circle 2].map Shape.typeName = ["Square", "Circle"] ∧
    (Shape.Square 3).area = 9 ∧
    |(Shape.Circle 2).area - 12.566| ≤ 1e-3 ∧
    [Shape.Square 3, Shape.Circle 2].length = 2 ∧
    |(aggregate [Shape.Square 3, Shape.Circle 2]).totalPerimeter - 24.566| ≤ 1e-3 ∧
    (aggregate [Shape.Square 3, Shape.Circle 2]).totalPolygons = 1 ∧
    (aggregate [Shape.Square 3, Shape.Circle 2]).totalPolygonSides
        / ((aggregate [Shape.Square 3, Shape.Circle 2]).totalPolygons : ℝ) = 4 ∧
    (0 : ℕ) = 0 :=
  c6_scenario1 (fun _ => ⟨'J', 0, 0, 0⟩) _
    (ProgramRun.ok ["C 2", "S 3"] [Shape.Square 3, Shape.Circle 2]
      (by rw [loadList_C2S3]; exact sorted_S3C2))

/-- C7: a line whose first parsed character is none of `C`, `T`, `R`, `S`
yields exactly one warning naming the code on the error stream, appends no
shape, leaves the processing of the remaining lines unchanged, and every
run whose file opened exits with success status. -/
theorem c7_unknown_code_skipped (envs : ℕ → JunkEnv) (line : String) (ch : Char)
    (cs : List Char) (rest : List String)
    (hline : line.toList.dropWhile Char.isWhitespace = ch :: cs)
    (hC : ch ≠ 'C') (hT : ch ≠ 'T') (hR : ch ≠ 'R') (hS : ch ≠ 'S') :
    processLine (envs 0) line
      = (none, some ("Unknown shape: " ++ String.singleton ch)) ∧
    loadList envs (line :: rest)
      = ((loadList (fun n => envs (n + 1)) rest).1,
         ("Unknown shape: " ++ String.singleton ch)
           :: (loadList (fun n => envs (n + 1)) rest).2) ∧
    ∀ (file : List String) (r : RunResult),
      ProgramRun envs (some file) r → r.exitCode = 0 := by
  have hp := processLine_unknown (envs 0) line ch cs hline hC hT hR hS
  refine ⟨hp, loadList_cons_warn envs line rest _ hp, ?_⟩
  intro file r h
  cases h
  rfl

/-- Witness for C7 on the line `"X 1 2"`. -/
theorem c7_unknown_code_skipped_witness :
    processLine ⟨'J', 0, 0, 0⟩ "X 1 2"
      = (none, some ("Unknown shape: " ++ String.singleton 'X')) ∧
    loadList (fun _ => ⟨'J', 0, 0, 0⟩) ["X 1 2"]
      = ((loadList (fun _ => ⟨'J', 0, 0, 0⟩) []).1,
         ("Unknown shape: " ++ String.singleton 'X')
           :: (loadList (fun _ => ⟨'J', 0, 0, 0⟩) []).2) ∧
    ∀ (file : List String) (r : RunResult),
      ProgramRun (fun _ => ⟨'J', 0, 0, 0⟩) (some file) r → r.exitCode = 0 :=
  c7_unknown_code_skipped (fun _ => ⟨'J', 0, 0, 0⟩) "X 1 2" 'X' [' ', '1', ' ', '2'] []
    rfl (by decide) (by decide) (by decide) (by decide)

/-- C1 counterexample: `main` uses `std::sort`, not `std::stable_sort`,
so stability is not guaranteed.  For the input `[Rectangle 1 4,
Rectangle 4 1]` — two distinct shapes of equal area 4 — the reversed list
is a legal `std::sort` result (a permutation, sorted by area), yet the two
equal-area shapes do not retain their original relative order. -/
theorem c1_stability_counterexample :
    IsSortResult [Shape.Rectangle 1 4, Shape.Rectangle 4 1]
      [Shape.Rectangle 4 1, Shape.Rectangle 1 4] ∧
    ¬ StableByArea [Shape.Rectangle 1 4, Shape.Rectangle 4 1]
      [Shape.Rectangle 4 1, Shape.Rectangle 1 4] := by
  have harea : (Shape.Rectangle 1 4).area = (Shape.Rectangle 4 1).area := by
    simp only [Shape.area, rectangleArea]
    push_cast
    norm_num
  constructor
  · refine ⟨List.Perm.swap (Shape.Rectangle 1 4) (Shape.Rectangle 4 1) [], ?_⟩
    simp only [List.sorted_cons, List.mem_singleton, forall_eq, List.sorted_singleton,
      and_true, areaLt]
    rw [harea]
    exact ⟨lt_irrefl (Shape.Rectangle 4 1).area, by simp, List.sorted_nil⟩
  · intro hst
    have h10 := hst 0 1 (by norm_num) (by norm_num) (by norm_num) harea
      1 0 (by norm_num) (by norm_num) rfl rfl
    exact absurd h10 (by norm_num)

/-- C1 amended: the sort in `main` yields a permutation of the input that
is ordered ascending by `area()`; it is not guaranteed stable (see the
counterexample), but whenever all areas are pairwise distinct the sorted
result is uniquely determined, hence deterministic. -/
theorem c1_sort_spec (l l₁ l₂ : List Shape)
    (h₁ : IsSortResult l l₁) (h₂ : IsSortResult l l₂) :
    l₁.Perm l ∧
    l₁.Sorted (fun x y => x.area ≤ y.area) ∧
    ((l.Pairwise fun x y => Shape.area x ≠ Shape.area y) → l₁ = l₂) :=
  ⟨h₁.1, h₁.2.imp fun h => not_lt.mp h, fun hd => sortResult_unique h₁ h₂ hd⟩

/-- Witness for the amended C1 on the input `[Circle 2, Square 3]`, whose
unique sort result is `[Square 3, Circle 2]`. -/
theorem c1_sort_spec_witness :
    [Shape.Square 3, Shape.Circle 2].Perm [Shape.Circle 2, Shape.Square 3] ∧
    [Shape.Square 3, Shape.Circle 2].Sorted (fun x y => x.area ≤ y.area) ∧
    ((List.Pairwise (fun x y => Shape.area x ≠ Shape.area y)
        [Shape.Circle 2, Shape.Square 3]) →
      [Shape.Square 3, Shape.Circle 2] = [Shape.Square 3, Shape.Circle 2]) :=
  c1_sort_spec [Shape.Circle 2, Shape.Square 3] _ _ sorted_S3C2 sorted_S3C2

/-! ### Lemmas about partial numeric extraction (for C9) -/

theorem takeWhile_append_all (p : Char → Bool) (l w : List Char)
    (hl : ∀ x ∈ l, p x = true) :
    (l ++ w).takeWhile p = l ++ w.takeWhile p ∧
    (l ++ w).dropWhile p = w.dropWhile p := by
  induction l with
  | nil => simp
  | cons a l ih =>
    have ha : p a = true := hl a (List.mem_cons_self a l)
    have ih' := ih fun x hx => hl x (List.mem_cons_of_mem a hx)
    simp [List.takeWhile_cons, List.dropWhile_cons, ha, ih'.1, ih'.2]

theorem takeWhile_append_stop (p : Char → Bool) (l w : List Char) (c : Char)
    (t : List Char) (h : l.dropWhile p = c :: t) :
    (l ++ w).takeWhile p = l.takeWhile p ∧
    (l ++ w).dropWhile p = c :: (t ++ w) := by
  induction l with
  | nil => simp at h
  | cons a l ih =>
    by_cases ha : p a = true
    · rw [List.dropWhile_cons, if_pos ha] at h
      have hrec := ih h
      simp [List.takeWhile_cons, List.dropWhile_cons, ha, hrec.1, hrec.2]
    · have ha' : p a = false := by simpa using ha
      rw [List.dropWhile_cons, if_neg (by simp [ha'])] at h
      injection h with h1 h2
      subst h1
      subst h2
      simp [List.takeWhile_cons, List.dropWhile_cons, ha']

/-- The sign stage commutes with appending further input, provided the
current input is nonempty. -/
theorem parseSign_append (c : Char) (cr w : List Char) :
    parseSign ((c :: cr) ++ w)
      = ((parseSign (c :: cr)).1, (parseSign (c :: cr)).2 ++ w) := by
  by_cases h1 : c = '-'
  · subst h1; rfl
  by_cases h2 : c = '+'
  · subst h2; rfl
  simp [parseSign, h1, h2]

/-- A successfully recognized numeral does not start with whitespace, so
the sentry's whitespace skipping is the identity on it. -/
theorem parseNumeral_not_ws (cs : List Char) (q : ℚ) (rest : List Char)
    (h : parseNumeral cs = some (q, rest)) :
    cs.dropWhile Char.isWhitespace = cs := by
  cases cs with
  | nil => rfl
  | cons c cr =>
    cases hb : c.isWhitespace with
    | false => simp [List.dropWhile_cons, hb]
    | true =>
      exfalso
      have hc : ((c = ' ' ∨ c = '\t') ∨ c = '\x0d') ∨ c = '\n' := by
        simpa [Char.isWhitespace] using hb
      rcases hc with ((rfl | rfl) | rfl) | rfl <;>
        simp [parseNumeral, parseSign] at h

/-- A numeral that consumes its whole token still stops correctly when the
token is followed by a space and further input. -/
theorem parseNumeral_append (cs w : List Char) (q : ℚ)
    (h : parseNumeral cs = some (q, [])) :
    parseNumeral (cs ++ ' ' :: w) = some (q, ' ' :: w) := by
  cases cs with
  | nil => simp [parseNumeral, parseSign] at h
  | cons c cr =>
    rcases hps : parseSign (c :: cr) with ⟨sgn, cs1⟩
    have hsign : parseSign (c :: (cr ++ ' ' :: w)) = (sgn, cs1 ++ ' ' :: w) := by
      have h' := parseSign_append c cr (' ' :: w)
      rw [hps] at h'
      simpa using h'
    rw [List.cons_append]
    have htw : (' ' :: w).takeWhile Char.isDigit = [] := by
      simp [List.takeWhile_cons]
    have hdwsp : (' ' :: w).dropWhile Char.isDigit = ' ' :: w := by
      simp [List.dropWhile_cons]
    rcases hdw : cs1.dropWhile Char.isDigit with _ | ⟨c2, t2⟩
    · -- the whole of `cs1` is digits
      have hall : ∀ x ∈ cs1, Char.isDigit x = true :=
        List.dropWhile_eq_nil_iff.mp hdw
      have htake : cs1.takeWhile Char.isDigit = cs1 := by
        have h0 := (takeWhile_append_all Char.isDigit cs1 [] hall).1
        simpa using h0
      have happ := takeWhile_append_all Char.isDigit cs1 (' ' :: w) hall
      simp only [parseNumeral, hps, hdw, htake] at h
      simp only [parseNumeral, hsign, happ.1, happ.2, htw, hdwsp, List.append_nil]
      rcases hemp : cs1.isEmpty with _ | _
      · rw [hemp] at h
        simp only [Bool.false_eq_true, if_false, Option.some.injEq, Prod.mk.injEq] at h
        simp [htake, hemp, h.1]
      · rw [hemp] at h
        simp at h
    · -- the digits stop inside `cs1`
      have happ := takeWhile_append_stop Char.isDigit cs1 (' ' :: w) c2 t2 hdw
      by_cases hdot : c2 = '.'
      · subst hdot
        simp only [parseNumeral, hps, hdw] at h
        rcases hdw2 : t2.dropWhile Char.isDigit with _ | ⟨c3, t3⟩
        · -- the fraction digits reach the end of the token
          have hall2 : ∀ x ∈ t2, Char.isDigit x = true :=
            List.dropWhile_eq_nil_iff.mp hdw2
          have htake2 : t2.takeWhile Char.isDigit = t2 := by
            have h0 := (takeWhile_append_all Char.isDigit t2 [] hall2).1
            simpa using h0
          rw [hdw2, htake2] at h
          have happ2 := takeWhile_append_all Char.isDigit t2 (' ' :: w) hall2
          simp only [parseNumeral, hsign, happ.1, happ.2, happ2.1, happ2.2,
            htw, hdwsp, List.append_nil]
          rcases hcond : (cs1.takeWhile Char.isDigit).isEmpty && t2.isEmpty with _ | _
          · rw [hcond] at h
            simp only [Bool.false_eq_true, if_false, Option.some.injEq,
              Prod.mk.injEq] at h
            simp [h.1]
          · rw [hcond] at h
            simp at h
        · -- the fraction digits stop inside the token: contradiction with
          -- the empty rest recorded in `h`
          rw [hdw2] at h
          rcases hcond : (cs1.takeWhile Char.isDigit).isEmpty
              && (t2.takeWhile Char.isDigit).isEmpty with _ | _
          · rw [hcond] at h
            simp at h
          · rw [hcond] at h
            simp at h
      · -- no decimal point, yet characters remain: contradiction with the
        -- empty rest recorded in `h`
        exfalso
        simp only [parseNumeral, hps, hdw] at h
        split at h
        · rename_i t ht
          injection ht with ht1 ht2
          exact hdot ht1
        · rcases hemp : (cs1.takeWhile Char.isDigit).isEmpty with _ | _
          · rw [hemp] at h
            simp at h
          · rw [hemp] at h
            simp at h
/-- Reading a number from a stream holding a space followed by a
recognizable numeral token yields the token's value. -/
theorem readNum_token (cs : List Char) (q : ℚ) (rest : List Char) (old : ℚ)
    (h : parseNumeral cs = some (q, rest)) :
    readNum ⟨' ' :: cs, false⟩ old = (q, ⟨rest, false⟩) := by
  have hws := parseNumeral_not_ws cs q rest h
  have hne : cs ≠ [] := by
    rintro rfl
    simp [parseNumeral, parseSign] at h
  rcases hcs : cs with _ | ⟨c, cr⟩
  · exact absurd hcs hne
  · subst hcs
    simp only [readNum, Bool.false_eq_true, if_false,
      List.dropWhile_cons_of_pos (by rfl : Char.isWhitespace ' ' = true), hws, h]

/-- Reading a number from an exhausted stream fails at the sentry and
leaves the target variable unchanged. -/
theorem readNum_exhausted (old : ℚ) :
    readNum ⟨[], false⟩ old = (old, ⟨[], true⟩) := rfl

/-- Reading a number from a stream whose fail bit is set does nothing. -/
theorem readNum_failbit (r : List Char) (old : ℚ) :
    readNum ⟨r, true⟩ old = (old, ⟨r, true⟩) := rfl

/-- A line `R <token>` (one of the two required parameters missing):
the Rectangle is still constructed and appended, its width keeping the
indeterminate previous contents of `b`. -/
theorem processLine_R_missing (env : JunkEnv) (line : String) (cs : List Char)
    (q : ℚ) (hline : line.toList = 'R' :: ' ' :: cs)
    (h : parseNumeral cs = some (q, [])) :
    processLine env line = (some (.Rectangle q env.b), none) := by
  have h0 : readChar ⟨'R' :: ' ' :: cs, false⟩ env.ch = ('R', ⟨' ' :: cs, false⟩) := rfl
  have h1 := readNum_token cs q [] env.a h
  simp only [processLine, hline, h0, h1, readNum_exhausted]

/-- A line `T <token>` (two of the three required parameters missing):
the Triangle is still constructed, `b` and `c` keeping their
indeterminate previous contents. -/
theorem processLine_T_missing1 (env : JunkEnv) (line : String) (cs : List Char)
    (q : ℚ) (hline : line.toList = 'T' :: ' ' :: cs)
    (h : parseNumeral cs = some (q, [])) :
    processLine env line = (some (.Triangle q env.b env.c), none) := by
  have h0 : readChar ⟨'T' :: ' ' :: cs, false⟩ env.ch = ('T', ⟨' ' :: cs, false⟩) := rfl
  have h1 := readNum_token cs q [] env.a h
  simp only [processLine, hline, h0, h1, readNum_exhausted, readNum_failbit]

/-- A line `T <token> <token>` (one of the three required parameters
missing): the Triangle is still constructed, `c` keeping its
indeterminate previous contents. -/
theorem processLine_T_missing2 (env : JunkEnv) (line : String)
    (cs cs2 : List Char) (q q2 : ℚ)
    (hline : line.toList = 'T' :: ' ' :: (cs ++ ' ' :: cs2))
    (h : parseNumeral cs = some (q, []))
    (h2 : parseNumeral cs2 = some (q2, [])) :
    processLine env line = (some (.Triangle q q2 env.c), none) := by
  have h0 : readChar ⟨'T' :: ' ' :: (cs ++ ' ' :: cs2), false⟩ env.ch
      = ('T', ⟨' ' :: (cs ++ ' ' :: cs2), false⟩) := rfl
  have h1 := readNum_token (cs ++ ' ' :: cs2) q (' ' :: cs2) env.a
    (parseNumeral_append cs cs2 q h)
  have h2' := readNum_token cs2 q2 [] env.b h2
  simp only [processLine, hline, h0, h1, h2', readNum_exhausted]

/-- A line consisting of a recognized code and nothing else: the shape is
still constructed, with every parameter keeping its indeterminate
previous contents. -/
theorem processLine_code_only (env : JunkEnv) :
    processLine env "C" = (some (.Circle env.a), none) ∧
    processLine env "S" = (some (.Square env.a), none) ∧
    processLine env "R" = (some (.Rectangle env.a env.b), none) ∧
    processLine env "T" = (some (.Triangle env.a env.b env.c), none) := by
  refine ⟨?_, ?_, ?_, ?_⟩ <;>
    simp [processLine, readChar, readNum]

/-- C9: a line with a recognized type code but fewer numeric parameters
than the code requires still constructs and appends its shape, with no
warning: parameters that were read keep their parsed values, and each
unread parameter keeps the indeterminate previous/default contents of its
uninitialized variable (here the `a`, `b`, `c` fields of the
environment).  The final conjunct shows that any such line is appended by
the loader, not skipped. -/
theorem c9_partial_parameters (env : JunkEnv) (lineR lineT lineTT : String)
    (cs cs2 : List Char) (q q2 : ℚ)
    (hR : lineR.toList = 'R' :: ' ' :: cs)
    (hT : lineT.toList = 'T' :: ' ' :: cs)
    (hTT : lineTT.toList = 'T' :: ' ' :: (cs ++ ' ' :: cs2))
    (h : parseNumeral cs = some (q, []))
    (h2 : parseNumeral cs2 = some (q2, [])) :
    processLine env lineR = (some (.Rectangle q env.b), none) ∧
    processLine env lineT = (some (.Triangle q env.b env.c), none) ∧
    processLine env lineTT = (some (.Triangle q q2 env.c), none) ∧
    processLine env "C" = (some (.Circle env.a), none) ∧
    processLine env "S" = (some (.Square env.a), none) ∧
    processLine env "R" = (some (.Rectangle env.a env.b), none) ∧
    processLine env "T" = (some (.Triangle env.a env.b env.c), none) ∧
    ∀ (envs : ℕ → JunkEnv) (line : String) (rest : List String) (s : Shape),
      processLine (envs 0) line = (some s, none) →
      loadList envs (line :: rest)
        = (s :: (loadList (fun n => envs (n + 1)) rest).1,
           (loadList (fun n => envs (n + 1)) rest).2) :=
  ⟨processLine_R_missing env lineR cs q hR h,
   processLine_T_missing1 env lineT cs q hT h,
   processLine_T_missing2 env lineTT cs cs2 q q2 hTT h h2,
   (processLine_code_only env).1,
   (processLine_code_only env).2.1,
   (processLine_code_only env).2.2.1,
   (processLine_code_only env).2.2.2,
   fun envs line rest s hp => loadList_cons_shape envs line rest s hp⟩

/-- Witness for C9 with previous variable contents `a = 7`, `b = 8`,
`c = 9` and the lines `R 5`, `T 5`, `T 5 2`, `C`, `S`, `R`, `T`. -/
theorem c9_partial_parameters_witness :
    processLine ⟨'J', 7, 8, 9⟩ "R 5" = (some (.Rectangle 5 8), none) ∧
    processLine ⟨'J', 7, 8, 9⟩ "T 5" = (some (.Triangle 5 8 9), none) ∧
    processLine ⟨'J', 7, 8, 9⟩ "T 5 2" = (some (.Triangle 5 2 9), none) ∧
    processLine ⟨'J', 7, 8, 9⟩ "C" = (some (.Circle 7), none) ∧
    processLine ⟨'J', 7, 8, 9⟩ "S" = (some (.Square 7), none) ∧
    processLine ⟨'J', 7, 8, 9⟩ "R" = (some (.Rectangle 7 8), none) ∧
    processLine ⟨'J', 7, 8, 9⟩ "T" = (some (.Triangle 7 8 9), none) ∧
    ∀ (envs : ℕ → JunkEnv) (line : String) (rest : List String) (s : Shape),
      processLine (envs 0) line = (some s, none) →
      loadList envs (line :: rest)
        = (s :: (loadList (fun n => envs (n + 1)) rest).1,
           (loadList (fun n => envs (n + 1)) rest).2) :=
  c9_partial_parameters ⟨'J', 7, 8, 9⟩ "R 5" "T 5" "T 5 2" ['5'] ['2'] 5 2
    rfl rfl rfl
    (by
      have hps : parseSign ['5'] = (1, ['5']) := rfl
      have ht : List.takeWhile Char.isDigit ['5'] = ['5'] := rfl
      have hd : List.dropWhile Char.isDigit ['5'] = [] := rfl
      have hv : digitsVal ['5'] = 5 := rfl
      norm_num [parseNumeral, hps, ht, hd, hv])
    (by
      have hps : parseSign ['2'] = (1, ['2']) := rfl
      have ht : List.takeWhile Char.isDigit ['2'] = ['2'] := rfl
      have hd : List.dropWhile Char.isDigit ['2'] = [] := rfl
      have hv : digitsVal ['2'] = 2 := rfl
      norm_num [parseNumeral, hps, ht, hd, hv])

end ShapesDemo
